import Mathlib

/-!
Verification of the esportsranker desktop core: the session store
(src/desktop/src/lib/storage.ts, `useSessionStore`), the tournament loader
(`loadTournamentNames`), and the static route table (src/desktop/src/App.tsx).
The TypeScript is shallowly embedded: the zustand store state becomes a
structure, `set` with a partial object becomes a record update, the external
Tauri `invoke` becomes an `Except` oracle argument, and JavaScript string
`trim()` is modelled over the ECMAScript whitespace set.
-/

/-- The set of code points removed by ECMAScript `String.prototype.trim`:
WhiteSpace (TAB, VT, FF, SP, NBSP, ZWNBSP and the Unicode Zs category)
and LineTerminator (LF, CR, LS, PS). -/
def jsIsWhitespace (c : Char) : Bool :=
  c = '\t' || c = '\n' || c = '\x0b' || c = '\x0c' || c = '\r' ||
  c = ' ' || c = '\u00A0' || c = '\u1680' ||
  ('\u2000' ≤ c && c ≤ '\u200A') ||
  c = '\u2028' || c = '\u2029' || c = '\u202F' || c = '\u205F' ||
  c = '\u3000' || c = '\uFEFF'

/-- ECMAScript `code.trim()`: drop leading and trailing JS whitespace. -/
def jsTrim (s : String) : String :=
  String.mk (((s.data.dropWhile jsIsWhitespace).reverse.dropWhile
    jsIsWhitespace).reverse)

/-- The data fields of the zustand session store state
(`SessionState` in src/desktop/src/lib/storage.ts): `storeId` is a debug
identifier, `accessToken` is the optional token, `isLoggedIn` the flag.
The two operation closures are modelled as top-level functions below. -/
structure SessionState where
  storeId : String
  accessToken : Option String
  isLoggedIn : Bool
deriving DecidableEq, Repr

/-- The state the store is created with:
`storeId = "SESSION_STORE_SINGLETON"`, `accessToken = null`,
`isLoggedIn = false`. -/
def initialSessionState : SessionState :=
  { storeId := "SESSION_STORE_SINGLETON"
    accessToken := none
    isLoggedIn := false }

/-- `loginWithDeviceCode` from src/desktop/src/lib/storage.ts:
`if (code && code.trim().length > 0)` then
`set({ accessToken: "mock_access_token_" + code.trim(), isLoggedIn: true })`,
else only `console.warn` (no state change). zustand `set` with a partial
object merges, so `storeId` is untouched; the record update models that. -/
def loginWithDeviceCode (s : SessionState) (code : String) : SessionState :=
  if code ≠ "" ∧ (jsTrim code).length > 0 then
    { s with
      accessToken := some ("mock_access_token_" ++ jsTrim code)
      isLoggedIn := true }
  else
    s

/-- `logout` from src/desktop/src/lib/storage.ts:
`set({ accessToken: null, isLoggedIn: false })`. -/
def logout (s : SessionState) : SessionState :=
  { s with accessToken := none, isLoggedIn := false }

/-- One externally triggered store operation. -/
inductive SessionOp where
  | login (code : String)
  | doLogout
deriving Repr

/-- Apply one operation to a store state. -/
def applyOp (s : SessionState) (op : SessionOp) : SessionState :=
  match op with
  | SessionOp.login code => loginWithDeviceCode s code
  | SessionOp.doLogout => logout s

/-- Run a sequence of operations from the initial store state; the states
this produces are exactly the reachable states of the store. -/
def runOps (ops : List SessionOp) : SessionState :=
  ops.foldl applyOp initialSessionState

/-- The documented store invariant: `isLoggedIn` holds iff `accessToken`
is non-null. -/
def sessionInvariant (s : SessionState) : Prop :=
  s.isLoggedIn = true ↔ s.accessToken ≠ none

instance (s : SessionState) : Decidable (sessionInvariant s) := by
  unfold sessionInvariant; infer_instance

/-- `loadTournamentNames` from src/desktop/src/lib/storage.ts: awaits the
external `invoke("get_tournaments")`, returns its list on success and
catches any rejection, logging it and returning `[]`. The external call is
modelled as an `Except` oracle passed in; the return type `List String`
(not `Except`) reflects that the promise always resolves. -/
def loadTournamentNames {ε : Type} (ext : Except ε (List String)) :
    List String :=
  match ext with
  | Except.ok names => names
  | Except.error _ => []

/-- A screen the router can mount. -/
inductive Screen where
  | dashboard
  | tournaments
  | login
deriving DecidableEq, Repr

/-- What a route resolves to: mounting a screen, or a `Navigate ... replace`
redirect to another path. -/
inductive RouteResult where
  | screen (s : Screen)
  | redirect (path : String)
deriving DecidableEq, Repr

/-- The route table of src/desktop/src/App.tsx, in declaration order:
`"/"` navigates to `/dashboard`, then the three page routes, then the
wildcard `"*"` fallback navigates to `/dashboard`. -/
def resolveRoute (path : String) : RouteResult :=
  if path = "/" then RouteResult.redirect "/dashboard"
  else if path = "/dashboard" then RouteResult.screen Screen.dashboard
  else if path = "/tournaments" then RouteResult.screen Screen.tournaments
  else if path = "/login" then RouteResult.screen Screen.login
  else RouteResult.redirect "/dashboard"

/-! ### Helper lemmas -/

lemma jsTrim_empty : jsTrim "" = "" := rfl

lemma jsTrim_ne_empty_iff_cond (code : String) :
    jsTrim code ≠ "" ↔ (code ≠ "" ∧ (jsTrim code).length > 0) := by
  constructor
  · intro h
    refine ⟨?_, ?_⟩
    · intro hc
      exact h (hc ▸ jsTrim_empty)
    · cases ht : jsTrim code with
      | mk data =>
        cases data with
        | nil => exact absurd ht h
        | cons c cs => simp [String.length]
  · rintro ⟨-, hlen⟩ hEq
    rw [hEq] at hlen
    simp [String.length] at hlen

lemma login_accepted (s : SessionState) (code : String)
    (h : jsTrim code ≠ "") :
    loginWithDeviceCode s code =
      { s with
        accessToken := some ("mock_access_token_" ++ jsTrim code)
        isLoggedIn := true } := by
  unfold loginWithDeviceCode
  rw [if_pos ((jsTrim_ne_empty_iff_cond code).mp h)]

lemma login_rejected (s : SessionState) (code : String)
    (h : jsTrim code = "") :
    loginWithDeviceCode s code = s := by
  unfold loginWithDeviceCode
  rw [if_neg]
  intro hc
  exact ((jsTrim_ne_empty_iff_cond code).mpr hc) h

lemma inv_applyOp (s : SessionState) (op : SessionOp)
    (h : sessionInvariant s) : sessionInvariant (applyOp s op) := by
  cases op with
  | login code =>
    by_cases hc : jsTrim code = ""
    · simpa [applyOp, login_rejected s code hc] using h
    · simp [applyOp, login_accepted s code hc, sessionInvariant]
  | doLogout =>
    simp [applyOp, logout, sessionInvariant]

lemma inv_foldl (ops : List SessionOp) (s : SessionState)
    (h : sessionInvariant s) : sessionInvariant (ops.foldl applyOp s) := by
  induction ops generalizing s with
  | nil => exact h
  | cons op rest ih => exact ih (applyOp s op) (inv_applyOp s op h)

/-! ### Claim theorems -/

/-- Claim C1: the session store invariant (`isLoggedIn` iff `accessToken`
is non-null) holds at the initial state, is preserved by every
`loginWithDeviceCode` call and every `logout` call, and hence holds at
every reachable state of the store. -/
theorem session_invariant_always :
    sessionInvariant initialSessionState ∧
    (∀ (s : SessionState) (code : String), sessionInvariant s →
      sessionInvariant (loginWithDeviceCode s code)) ∧
    (∀ s : SessionState, sessionInvariant s →
      sessionInvariant (logout s)) ∧
    (∀ ops : List SessionOp, sessionInvariant (runOps ops)) := by
  have hinit : sessionInvariant initialSessionState := by decide
  refine ⟨hinit, ?_, ?_, ?_⟩
  · intro s code h
    exact inv_applyOp s (SessionOp.login code) h
  · intro s h
    exact inv_applyOp s SessionOp.doLogout h
  · intro ops
    exact inv_foldl ops initialSessionState hinit

/-- Witness for C1 at concrete states: the preservation clauses applied at
the initial state. -/
theorem session_invariant_always_witness :
    sessionInvariant (loginWithDeviceCode initialSessionState "ABC") ∧
    sessionInvariant (logout initialSessionState) :=
  ⟨session_invariant_always.2.1 initialSessionState "ABC"
      session_invariant_always.1,
    session_invariant_always.2.2.1 initialSessionState
      session_invariant_always.1⟩

/-- Claim C2: for every code whose JS-trimmed form is non-empty,
`loginWithDeviceCode` sets `isLoggedIn` to true and `accessToken` to the
fixed prefix `"mock_access_token_"` concatenated with the trimmed code;
in particular the code `"ABC123-XYZ"` yields the token
`"mock_access_token_ABC123-XYZ"`. -/
theorem login_nonblank_sets_token (s : SessionState) (code : String)
    (h : jsTrim code ≠ "") :
    (loginWithDeviceCode s code).isLoggedIn = true ∧
    (loginWithDeviceCode s code).accessToken =
      some ("mock_access_token_" ++ jsTrim code) ∧
    (loginWithDeviceCode s "ABC123-XYZ").accessToken =
      some "mock_access_token_ABC123-XYZ" := by
  rw [login_accepted s code h,
    login_accepted s "ABC123-XYZ" (by decide)]
  exact ⟨rfl, rfl, rfl⟩

/-- Witness for C2 at the scenario input from the spec. -/
theorem login_nonblank_sets_token_witness :
    (loginWithDeviceCode initialSessionState "ABC123-XYZ").isLoggedIn
        = true ∧
    (loginWithDeviceCode initialSessionState "ABC123-XYZ").accessToken
        = some ("mock_access_token_" ++ jsTrim "ABC123-XYZ") ∧
    (loginWithDeviceCode initialSessionState "ABC123-XYZ").accessToken
        = some "mock_access_token_ABC123-XYZ" :=
  login_nonblank_sets_token initialSessionState "ABC123-XYZ" (by decide)

/-- Claim C3: for every code whose JS-trimmed form is empty (empty or
whitespace-only), `loginWithDeviceCode` returns the state unchanged in
every field; the embedding is total, so no error reaches the caller. -/
theorem login_blank_noop (s : SessionState) (code : String)
    (h : jsTrim code = "") :
    loginWithDeviceCode s code = s :=
  login_rejected s code h

/-- Witness for C3 at the whitespace-only code from the spec. -/
theorem login_blank_noop_witness :
    loginWithDeviceCode initialSessionState "   " = initialSessionState :=
  login_blank_noop initialSessionState "   " (by decide)

/-- Claim C4: from every prior state, `logout` leaves `accessToken = none`
and `isLoggedIn = false`; there is no precondition. -/
theorem logout_clears (s : SessionState) :
    (logout s).accessToken = none ∧ (logout s).isLoggedIn = false :=
  ⟨rfl, rfl⟩

/-- Claim C5: when the external `get_tournaments` call fails with any
error, `loadTournamentNames` still returns (the embedding is a total
function into `List String`, not into `Except`) and its result is the
empty sequence. -/
theorem loadTournamentNames_error_empty {ε : Type} (e : ε) :
    loadTournamentNames (Except.error e : Except ε (List String)) = [] :=
  rfl

/-- Claim C6: when the external `get_tournaments` call succeeds with any
sequence of names, `loadTournamentNames` returns exactly that sequence,
unchanged. -/
theorem loadTournamentNames_ok_id {ε : Type} (names : List String) :
    loadTournamentNames (Except.ok names : Except ε (List String))
      = names :=
  rfl

/-- Claim C7: `logout` is idempotent: from every starting state, two
consecutive calls produce the same state as one. -/
theorem logout_idempotent (s : SessionState) :
    logout (logout s) = logout s :=
  rfl

/-- Claim C8: re-login overwrites: for every state and codes `a`, `b`
with `b` non-blank, logging in with `a` and then with `b` yields exactly
the state reached by logging in with `b` alone. -/
theorem relogin_overwrites (s : SessionState) (a b : String)
    (h : jsTrim b ≠ "") :
    loginWithDeviceCode (loginWithDeviceCode s a) b =
      loginWithDeviceCode s b := by
  rw [login_accepted (loginWithDeviceCode s a) b h, login_accepted s b h]
  by_cases ha : jsTrim a = ""
  · rw [login_rejected s a ha]
  · rw [login_accepted s a ha]

/-- Witness for C8 at concrete codes. -/
theorem relogin_overwrites_witness :
    loginWithDeviceCode
        (loginWithDeviceCode initialSessionState "first") "second" =
      loginWithDeviceCode initialSessionState "second" :=
  relogin_overwrites initialSessionState "first" "second" (by decide)

/-- Claim C9: in the route table of App.tsx, every path outside the four
declared ones falls through to the wildcard redirect to `/dashboard`; the
root path also redirects to `/dashboard`; and the three named paths mount
their screens (so the redirect target mounts the Dashboard screen). -/
theorem route_table_resolution (path : String)
    (h : path ∉ (["/", "/login", "/dashboard", "/tournaments"] :
      List String)) :
    resolveRoute path = RouteResult.redirect "/dashboard" ∧
    resolveRoute "/" = RouteResult.redirect "/dashboard" ∧
    resolveRoute "/dashboard" = RouteResult.screen Screen.dashboard ∧
    resolveRoute "/tournaments" = RouteResult.screen Screen.tournaments ∧
    resolveRoute "/login" = RouteResult.screen Screen.login := by
  simp only [List.mem_cons, List.not_mem_nil, or_false, not_or] at h
  obtain ⟨h1, h2, h3, h4⟩ := h
  refine ⟨?_, rfl, ?_, ?_, ?_⟩ <;>
    simp [resolveRoute, h1, h2, h3, h4]

/-- Witness for C9 at an undefined path. -/
theorem route_table_resolution_witness :
    resolveRoute "/unknown" = RouteResult.redirect "/dashboard" :=
  (route_table_resolution "/unknown" (by decide)).1

/-- Claim C10: neither `loginWithDeviceCode` (with any code) nor `logout`
ever changes `storeId`; the only fields the operations write are
`accessToken` and `isLoggedIn`. -/
theorem operations_preserve_storeId (s : SessionState) (code : String) :
    (loginWithDeviceCode s code).storeId = s.storeId ∧
    (logout s).storeId = s.storeId := by
  constructor
  · unfold loginWithDeviceCode
    split <;> rfl
  · rfl
